import Mathlib

/-!
Shallow embedding of the FocalLengthAnalyzer program (main.py) in Lean 4.

Numbers are modelled by the rationals; Python library primitives that the
program calls (round, str.lower, str.strip, float parsing, os.path.basename,
os.path.splitext, dict lookup) are modelled by explicit executable functions
below.  All program functions keep their source names.
-/

namespace FocalLengthAnalyzer

/-- Model of Python int(round(x)): round-half-to-even on rationals. -/
def pyRound (q : ℚ) : ℤ :=
  if q - ⌊q⌋ < 1 / 2 then ⌊q⌋
  else if 1 / 2 < q - ⌊q⌋ then ⌊q⌋ + 1
  else if ⌊q⌋ % 2 = 0 then ⌊q⌋ else ⌊q⌋ + 1

/-- Model of Python round(x, 1): round to one decimal place, half to even. -/
def round1 (q : ℚ) : ℚ := (pyRound (10 * q) : ℚ) / 10

/-- Model of Python str.lower on a character (ASCII range). -/
def asciiLower (c : Char) : Char :=
  if 'A' ≤ c ∧ c ≤ 'Z' then Char.ofNat (c.toNat + 32) else c

/-- Model of Python str.lower (ASCII range suffices for camera model strings). -/
def pyLower (s : String) : String := String.mk (s.data.map asciiLower)

/-- Model of Python str.strip: drop surrounding whitespace. -/
def pyStrip (s : String) : String :=
  String.mk (((s.data.dropWhile Char.isWhitespace).reverse.dropWhile
    Char.isWhitespace).reverse)

/-- Model of os.path.basename: the part after the last path separator. -/
def basename (s : String) : String :=
  String.mk ((s.data.reverse.takeWhile (fun c => c ≠ '/')).reverse)

/-- Model of Python str.startswith. -/
def pyStartsWith (s p : String) : Bool := s.data.take p.data.length == p.data

/-- Numeric value of a digit string (digits validated separately). -/
def digitsVal (cs : List Char) : ℕ :=
  cs.foldl (fun a c => 10 * a + (c.toNat - 48)) 0

/-- Unsigned part of a plain decimal literal: digits with an optional
fraction, as accepted by Python float() on ordinary decimal input. -/
def pyFloatCore (cs : List Char) : Option ℚ :=
  let intPart := cs.takeWhile (fun c => c.isDigit)
  let rest := cs.drop intPart.length
  match rest with
  | [] => if intPart.isEmpty then none else some ((digitsVal intPart : ℚ))
  | c :: frac =>
    if c = '.' ∧ frac.all (fun d => d.isDigit) ∧ ¬(intPart.isEmpty ∧ frac.isEmpty)
    then some ((digitsVal intPart : ℚ) + (digitsVal frac : ℚ) / (10 : ℚ) ^ frac.length)
    else none

/-- Model of Python float(s) on plain decimal literals (optional sign,
digits, optional fractional part); anything else raises ValueError,
modelled as none. -/
def pyFloat? (s : String) : Option ℚ :=
  match s.data with
  | [] => none
  | c :: cs =>
    if c = '-' then (pyFloatCore cs).map (fun q => -q)
    else if c = '+' then pyFloatCore cs
    else pyFloatCore (c :: cs)

/-- Model of Python dict.get(key, default) over an association list. -/
def dictGet {β : Type} (l : List (String × β)) (k : String) (d : β) : β :=
  match l.find? (fun p => p.1 == k) with
  | some p => p.2
  | none => d

/-- The focal groups, in the definition (insertion) order of the Python
dict literal in _define_focal_groups: label, inclusive min, inclusive max. -/
def define_focal_groups : List (String × ℚ × ℚ) :=
  [("超广角(14-19mm)", 14, 19),
   ("超广角(20-23mm)", 20, 23),
   ("广角 (24-28mm)", 24, 28),
   ("标准广角 (35mm)", 29, 40),
   ("标准 (50mm)", 41, 65),
   ("人像 (85mm)", 66, 95),
   ("中长焦 (100-135mm)", 95, 149),
   ("长焦 (200mm)", 150, 250),
   ("超长焦 (300mm)", 251, 349),
   ("超长焦 (400mm)", 350, 449),
   ("超长焦 (500-600mm)", 450, 649),
   ("超长焦 (600mm+)", 650, 2000)]

/-- Normalization applied to a camera model before table lookup:
camera_model.lower().strip(). -/
def normalize_model (m : String) : String := pyStrip (pyLower m)

/-- get_camera_crop_factor: 1 for an absent or empty model, otherwise the
crop-factor table entry for the normalized model, 1 on a miss.  The loaded
table is a parameter (it comes from a JSON file read at startup). -/
def get_camera_crop_factor (crop_factors : String → Option ℚ)
    (camera_model : Option String) : ℚ :=
  match camera_model with
  | none => 1
  | some m =>
    if m = "" then 1
    else (crop_factors (normalize_model m)).getD 1

/-- convert_to_35mm_equivalent: none when the raw focal length is absent,
otherwise float(round(focal_length * crop_factor, 1)). -/
def convert_to_35mm_equivalent (crop_factors : String → Option ℚ)
    (focal_length : Option ℚ) (camera_model : Option String) : Option ℚ :=
  match focal_length with
  | none => none
  | some f => some (round1 (f * get_camera_crop_factor crop_factors camera_model))

/-- group_focal_length: the sentinel label for an absent value, the first
matching group label for a value inside some group, and a synthetic label
from the integer-rounded value otherwise. -/
def group_focal_length (focal_length : Option ℚ) : String :=
  match focal_length with
  | none => "未知焦段"
  | some x =>
    match define_focal_groups.find? (fun g => decide (g.2.1 ≤ x ∧ x ≤ g.2.2)) with
    | some g => g.1
    | none => toString (pyRound x) ++ "mm"

/-- One entry of the persisted missing-EXIF store, as written by
handle_missing_exif (the timestamp string is passed in by the caller). -/
structure ElicitedEntry where
  focal_length : ℚ
  crop_factor : ℚ
  equivalent_focal : ℚ
  sensor_choice : String
  timestamp : String
  deriving DecidableEq, Repr

/-- The missing-EXIF store: a Python dict from filename to entry, modelled
as an association list in insertion order. -/
abbrev Store : Type := List (String × ElicitedEntry)

/-- Python dict membership plus read: first (unique) binding of the key. -/
def storeLookup (st : Store) (k : String) : Option ElicitedEntry :=
  match List.find? (fun p => p.1 == k) st with
  | some p => some p.2
  | none => none

/-- Python dict assignment: overwrite in place, or append a new binding. -/
def storeSet (st : Store) (k : String) (v : ElicitedEntry) : Store :=
  match st with
  | [] => [(k, v)]
  | p :: rest => if p.1 = k then (k, v) :: rest else p :: storeSet rest k v

/-- The sensor-choice table of handle_missing_exif: choice code to crop
factor (1.0, 1.5, 1.6, 2.0, 2.7). -/
def sensor_crop_factors : List (String × ℚ) :=
  [("1", 1), ("2", 3 / 2), ("3", 8 / 5), ("4", 2), ("5", 27 / 10)]

/-- The focal-length elicitation loop of handle_missing_exif: read a line,
strip it; an empty line is the skip signal; a non-numeric line re-prompts.
The console is modelled as a list of input lines; none means the script of
inputs ran out inside the loop. -/
def elicitFocal : List String → Option (Option ℚ × List String)
  | [] => none
  | s :: rest =>
    let t := pyStrip s
    if t = "" then some (none, rest)
    else
      match pyFloat? t with
      | some q => some (some q, rest)
      | none => elicitFocal rest

/-- handle_missing_exif: cached entries are returned at once; otherwise the
focal length is elicited (empty input skips the image), then a sensor
choice maps to a crop factor with default 1, the product is stored under
the basename and returned.  Result: (returned equivalent or none for skip,
new store, remaining console input); none when the input script ran out. -/
def handle_missing_exif (st : Store) (now : String) (image_path : String)
    (inputs : List String) : Option (Option ℚ × Store × List String) :=
  let filename := basename image_path
  match storeLookup st filename with
  | some data => some (some data.equivalent_focal, st, inputs)
  | none =>
    match elicitFocal inputs with
    | none => none
    | some (none, rest) => some (none, st, rest)
    | some (some focal_length, rest) =>
      match rest with
      | [] => none
      | choice :: rest2 =>
        let sensor_choice := pyStrip choice
        let crop_factor := dictGet sensor_crop_factors sensor_choice 1
        let equivalent_focal := focal_length * crop_factor
        let entry : ElicitedEntry :=
          ⟨focal_length, crop_factor, equivalent_focal, sensor_choice, now⟩
        some (some equivalent_focal, storeSet st filename entry, rest2)

/-- One row of the focal_data list / the exported dataframe. -/
structure ImageRecord where
  filename : String
  original_focal : Option ℚ
  camera_model : Option String
  equivalent_focal : ℚ
  focal_group : String
  deriving DecidableEq, Repr

/-- Model of pandas Series.value_counts().sort_index(): the distinct values
with their multiplicities, listed in ascending key order; the comparison is
passed as an executable Boolean le. -/
def sortedCounts {α : Type} [DecidableEq α] (le : α → α → Bool)
    (xs : List α) : List (α × ℕ) :=
  (List.insertionSort (fun a b => le a b = true) xs.dedup).map (fun k => (k, xs.count k))

/-- The ordering pandas uses on a string index: Python string comparison,
lexicographic on code points, modelled on the character list. -/
def strLe (a b : String) : Bool := decide (a.data ≤ b.data)

/-- The ordering pandas uses on a numeric index. -/
def ratLe (a b : ℚ) : Bool := decide (a ≤ b)

/-- The value generate_statistics returns for non-empty data. -/
structure AnalysisResult where
  dataframe : List ImageRecord
  group_stats : List (String × ℕ)
  focal_stats : List (ℚ × ℕ)
  total_images : ℕ
  deriving DecidableEq

/-- generate_statistics: none (Python None) on empty data, otherwise the
two value_counts().sort_index() series and the total. -/
def generate_statistics (focal_data : List ImageRecord) : Option AnalysisResult :=
  if focal_data.isEmpty then none
  else
    some ⟨focal_data,
          sortedCounts strLe (focal_data.map (fun r => r.focal_group)),
          sortedCounts ratLe (focal_data.map (fun r => r.equivalent_focal)),
          focal_data.length⟩

/-- print_statistics line "most_used_group = group_stats.index[0]". -/
def most_used_group (st : AnalysisResult) : Option String :=
  st.group_stats.head?.map (fun p => p.1)

/-- print_statistics line "most_used_focal = focal_stats.index[0]". -/
def most_used_focal (st : AnalysisResult) : Option ℚ :=
  st.focal_stats.head?.map (fun p => p.1)

/-- The group labels in their defined (insertion) order, restricted to the
labels present in the given list; the iteration order claimed by the spec
for the grouped counts. -/
def groupsInDefinedOrder (present : List String) : List String :=
  (define_focal_groups.map (fun g => g.1)).filter (fun l => present.contains l)

/-- A file yielded by the os.walk over the input folder: the directory
components below the input folder and the plain filename. -/
structure WalkedImage where
  dirComponents : List String
  filename : String
  deriving DecidableEq, Repr

/-- Join path components with the separator. -/
def joinComponents : List String → String
  | [] => ""
  | [p] => p
  | p :: ps => p ++ "/" ++ joinComponents ps

/-- os.path.relpath(image_path, input_folder): the path below the folder. -/
def relPath (w : WalkedImage) : String :=
  joinComponents (w.dirComponents ++ [w.filename])

/-- os.path.join(root, filename) for a walked file. -/
def imagePath (input_folder : String) (w : WalkedImage) : String :=
  input_folder ++ "/" ++ relPath w

/-- The supported image extension set of analyze_folder. -/
def supported_formats : List String :=
  [".jpg", ".jpeg", ".tiff", ".tif", ".png", ".arw", ".cr2", ".nef"]

/-- Model of os.path.splitext(name)[1] for a plain filename: the part from
the last dot on, empty when the name has no dot after a non-dot character. -/
def splitext_ext (s : String) : String :=
  let cs := s.data
  match cs.reverse.findIdx? (fun c => c = '.') with
  | none => ""
  | some k =>
    let i := cs.length - 1 - k
    if (cs.take i).any (fun c => c ≠ '.') then String.mk (cs.drop i) else ""

/-- First pass of analyze_folder: walk the files, skip macOS resource
files and unsupported extensions, build a record for every image whose
EXIF oracle yields a focal length and collect the rest as missing.  The
EXIF extraction is the external decoder, passed as an oracle. -/
def analyze_pass1 (crop_factors : String → Option ℚ)
    (exif : WalkedImage → Option ℚ × Option String) :
    List WalkedImage → List ImageRecord × List WalkedImage
  | [] => ([], [])
  | w :: ws =>
    let (recs, miss) := analyze_pass1 crop_factors exif ws
    if pyStartsWith w.filename ("._") then (recs, miss)
    else if supported_formats.contains (splitext_ext (pyLower w.filename)) then
      match exif w with
      | (none, _) => (recs, w :: miss)
      | (some focal_length, camera_model) =>
        match convert_to_35mm_equivalent crop_factors (some focal_length) camera_model with
        | some equivalent_focal =>
          (⟨relPath w, some focal_length, camera_model, equivalent_focal,
            group_focal_length (some equivalent_focal)⟩ :: recs, miss)
        | none => (recs, miss)
    else (recs, miss)

/-- Second pass of analyze_folder: resolve every missing-EXIF file through
handle_missing_exif, skipping the ones the user skips. -/
def analyze_pass2 (input_folder : String) (now : String) :
    Store → List String → List WalkedImage →
    Option (List ImageRecord × Store × List String)
  | st, inputs, [] => some ([], st, inputs)
  | st, inputs, w :: ws =>
    match handle_missing_exif st now (imagePath input_folder w) inputs with
    | none => none
    | some (none, st1, rest) => analyze_pass2 input_folder now st1 rest ws
    | some (some equivalent_focal, st1, rest) =>
      match analyze_pass2 input_folder now st1 rest ws with
      | none => none
      | some (recs, st2, rest2) =>
        some (⟨basename (imagePath input_folder w), none, some ("手动输入"),
               equivalent_focal, group_focal_length (some equivalent_focal)⟩ :: recs,
              st2, rest2)

/-- analyze_folder over an abstract walk and EXIF oracle: the two passes,
metadata records first, elicited records after them. -/
def analyze_folder (crop_factors : String → Option ℚ) (st : Store)
    (now : String) (input_folder : String) (walk : List WalkedImage)
    (exif : WalkedImage → Option ℚ × Option String) (inputs : List String) :
    Option (List ImageRecord × Store × List String) :=
  let (focal_data, missing) := analyze_pass1 crop_factors exif walk
  match analyze_pass2 input_folder now st inputs missing with
  | none => none
  | some (elicited, st1, rest) => some (focal_data ++ elicited, st1, rest)

/-! Helper lemmas. -/

lemma pyRound_le_add_half (q : ℚ) : (pyRound q : ℚ) ≤ q + 1 / 2 := by
  have h1 : ((⌊q⌋ : ℤ) : ℚ) ≤ q := Int.floor_le q
  have h2 : q < (⌊q⌋ : ℚ) + 1 := Int.lt_floor_add_one q
  unfold pyRound
  split_ifs with ha hb hc <;> push_cast <;> [linarith; linarith; linarith; linarith]

lemma sub_half_le_pyRound (q : ℚ) : q - 1 / 2 ≤ (pyRound q : ℚ) := by
  have h1 : ((⌊q⌋ : ℤ) : ℚ) ≤ q := Int.floor_le q
  have h2 : q < (⌊q⌋ : ℚ) + 1 := Int.lt_floor_add_one q
  unfold pyRound
  split_ifs with ha hb hc <;> push_cast
  · linarith
  · linarith
  · have : ¬ (q - (⌊q⌋ : ℚ) < 1 / 2) := ha
    linarith [not_lt.mp ha]
  · linarith [not_lt.mp ha]

lemma pyRound_mono {x y : ℚ} (h : x ≤ y) : pyRound x ≤ pyRound y := by
  by_contra hlt
  push_neg at hlt
  have h3 : (pyRound y : ℚ) + 1 ≤ (pyRound x : ℚ) := by
    exact_mod_cast Int.add_one_le_iff.mpr hlt
  have b1 := pyRound_le_add_half x
  have b2 := sub_half_le_pyRound y
  have hyx : y ≤ x := by linarith
  have hxy : x = y := le_antisymm h hyx
  rw [hxy] at hlt
  exact lt_irrefl _ hlt

lemma round1_mono {x y : ℚ} (h : x ≤ y) : round1 x ≤ round1 y := by
  unfold round1
  have h10 : pyRound (10 * x) ≤ pyRound (10 * y) := pyRound_mono (by linarith)
  have h10q : (pyRound (10 * x) : ℚ) ≤ (pyRound (10 * y) : ℚ) := by exact_mod_cast h10
  linarith

lemma strLe_iff (a b : String) : strLe a b = true ↔ a ≤ b := by
  unfold strLe
  rw [decide_eq_true_iff]
  exact (String.le_iff_toList_le).symm

lemma ratLe_iff (a b : ℚ) : ratLe a b = true ↔ a ≤ b := by
  unfold ratLe
  exact decide_eq_true_iff

lemma sortedCounts_keys {α : Type} [DecidableEq α] (le : α → α → Bool)
    (xs : List α) :
    (sortedCounts le xs).map Prod.fst =
      List.insertionSort (fun a b => le a b = true) xs.dedup := by
  unfold sortedCounts
  rw [List.map_map]
  exact List.map_id _

lemma sortedCounts_sorted_lt {α : Type} [LinearOrder α] [DecidableEq α]
    (le : α → α → Bool) (hle : ∀ a b, le a b = true ↔ a ≤ b) (xs : List α) :
    List.Sorted (fun a b => a < b) ((sortedCounts le xs).map Prod.fst) := by
  rw [sortedCounts_keys]
  have ht : IsTotal α (fun a b => le a b = true) :=
    ⟨fun a b => by simp only [hle]; exact le_total a b⟩
  have htr : IsTrans α (fun a b => le a b = true) :=
    ⟨fun a b c h1 h2 => by
      simp only [hle] at h1 h2 ⊢
      exact le_trans h1 h2⟩
  have hs : List.Sorted (fun a b => le a b = true)
      (List.insertionSort (fun a b => le a b = true) xs.dedup) :=
    @List.sorted_insertionSort α (fun a b => le a b = true) _ ht htr xs.dedup
  have hnd : (List.insertionSort (fun a b => le a b = true) xs.dedup).Nodup :=
    (List.perm_insertionSort (fun a b => le a b = true) xs.dedup).nodup_iff.mpr
      (List.nodup_dedup xs)
  have hsle : List.Sorted (fun a b => a ≤ b)
      (List.insertionSort (fun a b => le a b = true) xs.dedup) :=
    hs.imp (fun h => (hle _ _).mp h)
  exact hsle.lt_of_le hnd

lemma find?_first {α : Type} (p : α → Bool) :
    ∀ (l : List α) (i : ℕ) (hi : i < l.length),
      p (l.get ⟨i, hi⟩) = true →
      (∀ j (hj : j < i), p (l.get ⟨j, Nat.lt_trans hj hi⟩) = false) →
      l.find? p = some (l.get ⟨i, hi⟩)
  | a :: l, 0, _, hp, _ => List.find?_cons_of_pos l hp
  | a :: l, i + 1, hi, hp, hmin => by
    have ha : p a = false := hmin 0 (Nat.succ_pos i)
    rw [List.find?_cons_of_neg l (by simp [ha])]
    exact find?_first p l i (Nat.lt_of_succ_lt_succ hi) hp
      (fun j hj => hmin (j + 1) (Nat.succ_lt_succ hj))

lemma append_mm_ne (s : String) : ¬ (s ++ "mm" = "未知焦段") := by
  intro h
  have hd : s.data ++ ("mm").data = ("未知焦段").data := by
    rw [← String.data_append, h]
  have h1 : (s.data ++ ("mm").data).getLast? = some 'm' := by
    rw [show (("mm").data : List Char) = ['m'] ++ ['m'] from rfl, ← List.append_assoc,
      List.getLast?_concat]
  rw [hd] at h1
  exact absurd h1 (by decide)

lemma hme_cached (st : Store) (now image_path : String) (inputs : List String)
    (data : ElicitedEntry) (h : storeLookup st (basename image_path) = some data) :
    handle_missing_exif st now image_path inputs =
      some (some data.equivalent_focal, st, inputs) := by
  simp only [handle_missing_exif, h]

lemma pyFloat_empty : pyFloat? ("") = none := rfl

lemma hme_fresh (st : Store) (now image_path : String) (s c : String)
    (rest : List String) (f : ℚ)
    (hmiss : storeLookup st (basename image_path) = none)
    (hf : pyFloat? (pyStrip s) = some f) :
    handle_missing_exif st now image_path (s :: c :: rest) =
      some (some (f * dictGet sensor_crop_factors (pyStrip c) 1),
            storeSet st (basename image_path)
              ⟨f, dictGet sensor_crop_factors (pyStrip c) 1,
               f * dictGet sensor_crop_factors (pyStrip c) 1, pyStrip c, now⟩,
            rest) := by
  have hs : ¬ (pyStrip s = "") := by
    intro h0
    rw [h0, pyFloat_empty] at hf
    exact Option.noConfusion hf
  simp only [handle_missing_exif, hmiss, elicitFocal, if_neg hs, hf]

lemma dictGet_sensor_default (k : String)
    (hk : ¬ k ∈ [("1"), ("2"), ("3"), ("4"), ("5")]) :
    dictGet sensor_crop_factors k 1 = 1 := by
  simp only [List.mem_cons, List.not_mem_nil, or_false] at hk
  push_neg at hk
  obtain ⟨h1, h2, h3, h4, h5⟩ := hk
  have e1 : (("1") == k) = false := beq_eq_false_iff_ne.mpr (fun h => h1 h.symm)
  have e2 : (("2") == k) = false := beq_eq_false_iff_ne.mpr (fun h => h2 h.symm)
  have e3 : (("3") == k) = false := beq_eq_false_iff_ne.mpr (fun h => h3 h.symm)
  have e4 : (("4") == k) = false := beq_eq_false_iff_ne.mpr (fun h => h4 h.symm)
  have e5 : (("5") == k) = false := beq_eq_false_iff_ne.mpr (fun h => h5 h.symm)
  simp [dictGet, sensor_crop_factors, List.find?, e1, e2, e3, e4, e5]

/-! Claim theorems. -/

/-- C5: convert_to_35mm_equivalent returns none exactly when the raw focal
length is absent, and otherwise the raw focal length times the crop factor
resolved for the camera model, rounded to one decimal place. -/
theorem convert_to_35mm_equivalent_spec (cf : String → Option ℚ)
    (focal_length : Option ℚ) (camera_model : Option String) :
    (convert_to_35mm_equivalent cf focal_length camera_model = none ↔
      focal_length = none) ∧
    convert_to_35mm_equivalent cf focal_length camera_model =
      focal_length.map
        (fun f => round1 (f * get_camera_crop_factor cf camera_model)) := by
  cases focal_length <;> simp [convert_to_35mm_equivalent]

/-- C7: for raw focal lengths 0 < f ≤ g, convert_to_35mm_equivalent returns
round(f * c, 1) and the rounded value is monotone both in the raw focal
length and in the resolved crop factor. -/
theorem convert_to_35mm_equivalent_monotone (cf cg : String → Option ℚ)
    (m mg : Option String) (f g : ℚ) (hf : 0 < f) (hfg : f ≤ g)
    (hc0 : 0 ≤ get_camera_crop_factor cf m)
    (hcc : get_camera_crop_factor cf m ≤ get_camera_crop_factor cg mg) :
    convert_to_35mm_equivalent cf (some f) m =
      some (round1 (f * get_camera_crop_factor cf m)) ∧
    round1 (f * get_camera_crop_factor cf m) ≤
      round1 (g * get_camera_crop_factor cf m) ∧
    round1 (f * get_camera_crop_factor cf m) ≤
      round1 (f * get_camera_crop_factor cg mg) := by
  refine ⟨rfl, round1_mono ?_, round1_mono ?_⟩
  · exact mul_le_mul_of_nonneg_right hfg hc0
  · exact mul_le_mul_of_nonneg_left hcc (le_of_lt hf)

/-- Witness for C7 at f = 50 ≤ g = 60, crop factors 1 (default) and 2. -/
theorem convert_to_35mm_equivalent_monotone_witness :
    (0 : ℚ) < 50 ∧ (50 : ℚ) ≤ 60 ∧
    0 ≤ get_camera_crop_factor (fun _ => none) none ∧
    get_camera_crop_factor (fun _ => none) none ≤
      get_camera_crop_factor (fun u => if u = ("m43") then some 2 else none)
        (some ("m43")) ∧
    (convert_to_35mm_equivalent (fun _ => none) (some 50) none =
      some (round1 (50 * get_camera_crop_factor (fun _ => none) none)) ∧
    round1 (50 * get_camera_crop_factor (fun _ => none) none) ≤
      round1 (60 * get_camera_crop_factor (fun _ => none) none) ∧
    round1 (50 * get_camera_crop_factor (fun _ => none) none) ≤
      round1 (50 * get_camera_crop_factor
        (fun u => if u = ("m43") then some 2 else none) (some ("m43")))) :=
  ⟨by norm_num, by norm_num, by decide, by decide,
   convert_to_35mm_equivalent_monotone (fun _ => none)
     (fun u => if u = ("m43") then some 2 else none) none (some ("m43"))
     50 60 (by norm_num) (by norm_num) (by decide) (by decide)⟩

/-- C6: get_camera_crop_factor is 1 on an absent or empty model; otherwise
it looks up the lower-cased trimmed model, returns the table value on a hit
and 1 on a miss, so any two case and surrounding-whitespace variants of a
model resolve to the same factor (for a table without an empty key). -/
theorem get_camera_crop_factor_spec (cf : String → Option ℚ) :
    get_camera_crop_factor cf none = 1 ∧
    get_camera_crop_factor cf (some ("")) = 1 ∧
    (∀ m v, ¬ m = "" → cf (normalize_model m) = some v →
      get_camera_crop_factor cf (some m) = v) ∧
    (∀ m, ¬ m = "" → cf (normalize_model m) = none →
      get_camera_crop_factor cf (some m) = 1) ∧
    (cf ("") = none → ∀ s t, normalize_model s = normalize_model t →
      get_camera_crop_factor cf (some s) = get_camera_crop_factor cf (some t)) := by
  refine ⟨rfl, rfl, ?_, ?_, ?_⟩
  · intro m v hm hcf
    simp [get_camera_crop_factor, hm, hcf]
  · intro m hm hcf
    simp [get_camera_crop_factor, hm, hcf]
  · intro h s t hst
    by_cases hs : s = "" <;> by_cases ht : t = ""
    · rw [hs, ht]
    · subst hs
      have h0 : normalize_model t = "" := hst.symm
      simp [get_camera_crop_factor, ht, h0, h]
    · subst ht
      have h0 : normalize_model s = "" := hst
      simp [get_camera_crop_factor, hs, h0, h]
    · simp [get_camera_crop_factor, hs, ht, hst]

/-- Witness for C6: the spec's example variants of "canon eos r5" resolve
to the same factor over a one-entry table. -/
theorem get_camera_crop_factor_spec_witness :
    ((fun u => if u = ("canon eos r5") then some ((17 : ℚ) / 10) else none)
      ("") = none) ∧
    normalize_model ("Canon EOS R5") = normalize_model (" canon eos r5 ") ∧
    get_camera_crop_factor
        (fun u => if u = ("canon eos r5") then some ((17 : ℚ) / 10) else none)
        (some ("Canon EOS R5")) =
      get_camera_crop_factor
        (fun u => if u = ("canon eos r5") then some ((17 : ℚ) / 10) else none)
        (some (" canon eos r5 ")) :=
  ⟨rfl, by decide,
   (get_camera_crop_factor_spec
       (fun u => if u = ("canon eos r5") then some ((17 : ℚ) / 10) else none)).2.2.2.2
     rfl ("Canon EOS R5") (" canon eos r5 ") (by decide)⟩

/-- C8: when the basename of the image is already a key of the store,
handle_missing_exif returns the stored equivalent focal length, leaves the
store unchanged and consumes no console input. -/
theorem handle_missing_exif_cached_reuse (st : Store) (now image_path : String)
    (inputs : List String) (data : ElicitedEntry)
    (h : storeLookup st (basename image_path) = some data) :
    handle_missing_exif st now image_path inputs =
      some (some data.equivalent_focal, st, inputs) :=
  hme_cached st now image_path inputs data h

/-- Witness for C8: an entry stored for "x.jpg" in an earlier run is reused
for "photos/x.jpg" with the console input left untouched. -/
theorem handle_missing_exif_cached_reuse_witness :
    storeLookup [(("x.jpg"), (⟨50, 1, 50, "1", "t1"⟩ : ElicitedEntry))]
      (basename ("photos/x.jpg")) = some (⟨50, 1, 50, "1", "t1"⟩ : ElicitedEntry) ∧
    handle_missing_exif [(("x.jpg"), (⟨50, 1, 50, "1", "t1"⟩ : ElicitedEntry))]
      ("t2") ("photos/x.jpg") ["7"] =
      some (some 50, [(("x.jpg"), (⟨50, 1, 50, "1", "t1"⟩ : ElicitedEntry))], ["7"]) :=
  ⟨by decide,
   handle_missing_exif_cached_reuse
     [(("x.jpg"), (⟨50, 1, 50, "1", "t1"⟩ : ElicitedEntry))] ("t2")
     ("photos/x.jpg") ["7"] (⟨50, 1, 50, "1", "t1"⟩ : ElicitedEntry) (by decide)⟩

/-- C9: any sensor-choice input whose stripped form is not one of the five
codes — the empty string included — yields crop factor 1 (full frame); no
re-prompt happens (exactly one line is consumed) and no error is raised
(the run continues with a stored entry). -/
theorem sensor_choice_default_full_frame (st : Store) (now image_path : String)
    (s c : String) (rest : List String) (f : ℚ)
    (hmiss : storeLookup st (basename image_path) = none)
    (hf : pyFloat? (pyStrip s) = some f)
    (hc : ¬ pyStrip c ∈ [("1"), ("2"), ("3"), ("4"), ("5")]) :
    dictGet sensor_crop_factors (pyStrip c) 1 = 1 ∧
    handle_missing_exif st now image_path (s :: c :: rest) =
      some (some (f * 1),
            storeSet st (basename image_path) ⟨f, 1, f * 1, pyStrip c, now⟩,
            rest) := by
  have hd : dictGet sensor_crop_factors (pyStrip c) 1 = 1 :=
    dictGet_sensor_default (pyStrip c) hc
  refine ⟨hd, ?_⟩
  rw [hme_fresh st now image_path s c rest f hmiss hf, hd]

/-- Witness for C9 at focal input "50" and the empty sensor choice. -/
theorem sensor_choice_default_full_frame_witness :
    storeLookup [] (basename ("a.jpg")) = none ∧
    pyFloat? (pyStrip ("50")) = some 50 ∧
    ¬ pyStrip ("") ∈ [("1"), ("2"), ("3"), ("4"), ("5")] ∧
    (dictGet sensor_crop_factors (pyStrip ("")) 1 = 1 ∧
     handle_missing_exif [] ("t") ("a.jpg") ["50", ""] =
       some (some ((50 : ℚ) * 1),
             storeSet [] (basename ("a.jpg")) ⟨50, 1, 50 * 1, pyStrip (""), "t"⟩,
             [])) :=
  ⟨rfl, by decide, by decide,
   sensor_choice_default_full_frame [] ("t") ("a.jpg") ("50") ("") [] 50
     rfl (by decide) (by decide)⟩

/-- C4 (counterexample): 95 lies within the inclusive bounds of the defined
group 中长焦 (100-135mm), yet group_focal_length returns 人像 (85mm) — the
two groups overlap at 95 and the earlier one wins, so "returns exactly that
group's label" fails for the later group. -/
theorem group_focal_length_overlap_cex :
    (("中长焦 (100-135mm)", (95 : ℚ), (149 : ℚ)) ∈ define_focal_groups ∧
      ((95 : ℚ) ≤ 95 ∧ (95 : ℚ) ≤ 149)) ∧
    group_focal_length (some 95) = "人像 (85mm)" ∧
    ¬ (("人像 (85mm)" : String) = "中长焦 (100-135mm)") := by decide

/-- C4 (amended): group_focal_length returns the unknown sentinel iff the
input is absent; for a value inside some defined group it returns the label
of the first group in definition order containing it; and for a finite
value in no group it returns the integer-rounded synthetic label, never
failing. -/
theorem group_focal_length_spec :
    group_focal_length none = "未知焦段" ∧
    (∀ x : ℚ, ¬ group_focal_length (some x) = "未知焦段") ∧
    (∀ (x : ℚ) (i : ℕ) (hi : i < define_focal_groups.length),
      ((define_focal_groups.get ⟨i, hi⟩).2.1 ≤ x ∧
        x ≤ (define_focal_groups.get ⟨i, hi⟩).2.2) →
      (∀ j (hj : j < i),
        ¬ ((define_focal_groups.get ⟨j, Nat.lt_trans hj hi⟩).2.1 ≤ x ∧
           x ≤ (define_focal_groups.get ⟨j, Nat.lt_trans hj hi⟩).2.2)) →
      group_focal_length (some x) = (define_focal_groups.get ⟨i, hi⟩).1) ∧
    (∀ x : ℚ, (∀ g ∈ define_focal_groups, ¬ (g.2.1 ≤ x ∧ x ≤ g.2.2)) →
      group_focal_length (some x) = toString (pyRound x) ++ "mm") := by
  refine ⟨rfl, ?_, ?_, ?_⟩
  · intro x
    rcases hfind : List.find?
        (fun g => decide (g.2.1 ≤ x ∧ x ≤ g.2.2)) define_focal_groups with _ | g
    · simp only [group_focal_length]
      rw [hfind]
      exact append_mm_ne (toString (pyRound x))
    · have hg : g ∈ define_focal_groups := List.mem_of_find?_eq_some hfind
      have hlabels : ∀ p ∈ define_focal_groups, ¬ p.1 = "未知焦段" := by decide
      simp only [group_focal_length]
      rw [hfind]
      exact hlabels g hg
  · intro x i hi hin hmin
    have hp : (fun g => decide (g.2.1 ≤ x ∧ x ≤ g.2.2))
        (define_focal_groups.get ⟨i, hi⟩) = true := decide_eq_true hin
    have hm : ∀ j (hj : j < i),
        (fun g => decide (g.2.1 ≤ x ∧ x ≤ g.2.2))
          (define_focal_groups.get ⟨j, Nat.lt_trans hj hi⟩) = false :=
      fun j hj => decide_eq_false (hmin j hj)
    have hfind := find?_first (fun g => decide (g.2.1 ≤ x ∧ x ≤ g.2.2))
      define_focal_groups i hi hp hm
    simp only [group_focal_length]
    rw [hfind]
  · intro x hno
    have hfind : List.find?
        (fun g => decide (g.2.1 ≤ x ∧ x ≤ g.2.2)) define_focal_groups = none :=
      List.find?_eq_none.mpr (fun g hg => by simpa using hno g hg)
    simp only [group_focal_length, hfind]

/-- Witness for C4: 95 is inside group index 5 (人像 (85mm)), no earlier
group contains it, and group_focal_length returns that label. -/
theorem group_focal_length_spec_witness :
    ((define_focal_groups.get ⟨5, by decide⟩).2.1 ≤ (95 : ℚ) ∧
      (95 : ℚ) ≤ (define_focal_groups.get ⟨5, by decide⟩).2.2) ∧
    group_focal_length (some 95) = (define_focal_groups.get ⟨5, by decide⟩).1 :=
  ⟨by decide, group_focal_length_spec.2.2.1 95 5 (by decide) (by decide) (by decide)⟩

/-- C3 (counterexample): for records with equivalent focal lengths 15 and
25 the grouped counts iterate as 广角 (24-28mm) before 超广角(14-19mm)
(lexicographic label order), not in the groups' defined insertion order. -/
theorem generate_statistics_defined_order_cex :
    (generate_statistics
        [⟨("1.jpg"), some 15, none, 15, group_focal_length (some 15)⟩,
         ⟨("2.jpg"), some 25, none, 25, group_focal_length (some 25)⟩]).map
        (fun st => st.group_stats.map Prod.fst) =
      some [("广角 (24-28mm)"), ("超广角(14-19mm)")] ∧
    groupsInDefinedOrder [("广角 (24-28mm)"), ("超广角(14-19mm)")] =
      [("超广角(14-19mm)"), ("广角 (24-28mm)")] ∧
    ¬ (([("广角 (24-28mm)"), ("超广角(14-19mm)")] : List String) =
        [("超广角(14-19mm)"), ("广角 (24-28mm)")]) := by decide

/-- C3 (amended): in any AnalysisResult of generate_statistics the grouped
counts iterate in strictly ascending lexicographic order of the label
string, and the per-value counts in strictly ascending numeric order of
the equivalent focal length. -/
theorem generate_statistics_sorted_keys (focal_data : List ImageRecord)
    (st : AnalysisResult) (h : generate_statistics focal_data = some st) :
    List.Sorted (fun a b : String => a < b) (st.group_stats.map Prod.fst) ∧
    List.Sorted (fun a b : ℚ => a < b) (st.focal_stats.map Prod.fst) := by
  unfold generate_statistics at h
  by_cases he : focal_data.isEmpty
  · rw [if_pos he] at h
    exact absurd h (by simp)
  · rw [if_neg he] at h
    injection h with h
    subst h
    exact ⟨sortedCounts_sorted_lt strLe strLe_iff _,
           sortedCounts_sorted_lt ratLe ratLe_iff _⟩

/-- Witness for C3 on a one-record dataset. -/
theorem generate_statistics_sorted_keys_witness :
    generate_statistics [⟨("1.jpg"), some 24, none, 24, ("广角 (24-28mm)")⟩] =
      some ⟨[⟨("1.jpg"), some 24, none, 24, ("广角 (24-28mm)")⟩],
            [(("广角 (24-28mm)"), 1)], [((24 : ℚ), 1)], 1⟩ ∧
    (List.Sorted (fun a b : String => a < b)
      ((⟨[⟨("1.jpg"), some 24, none, 24, ("广角 (24-28mm)")⟩],
         [(("广角 (24-28mm)"), 1)], [((24 : ℚ), 1)], 1⟩ :
          AnalysisResult).group_stats.map Prod.fst) ∧
     List.Sorted (fun a b : ℚ => a < b)
      ((⟨[⟨("1.jpg"), some 24, none, 24, ("广角 (24-28mm)")⟩],
         [(("广角 (24-28mm)"), 1)], [((24 : ℚ), 1)], 1⟩ :
          AnalysisResult).focal_stats.map Prod.fst)) :=
  ⟨by decide,
   generate_statistics_sorted_keys
     [⟨("1.jpg"), some 24, none, 24, ("广角 (24-28mm)")⟩] _ (by decide)⟩

/-- C1 (code bug): on records with equivalent focal lengths 24, 50, 50 the
reported upgrade suggestion — the first index entry of the sorted counts —
is 广角 (24-28mm) with count 1 and focal 24 with count 1, although
标准 (50mm) and 50 each have count 2: the first key after sort_index is not
a best-represented key, contradicting the most_used naming and printed
text. -/
theorem most_used_first_index_not_best :
    (generate_statistics
        [⟨("1.jpg"), some 24, none, 24, group_focal_length (some 24)⟩,
         ⟨("2.jpg"), some 50, none, 50, group_focal_length (some 50)⟩,
         ⟨("3.jpg"), some 50, none, 50, group_focal_length (some 50)⟩]).map
        most_used_group = some (some ("广角 (24-28mm)")) ∧
    (generate_statistics
        [⟨("1.jpg"), some 24, none, 24, group_focal_length (some 24)⟩,
         ⟨("2.jpg"), some 50, none, 50, group_focal_length (some 50)⟩,
         ⟨("3.jpg"), some 50, none, 50, group_focal_length (some 50)⟩]).map
        most_used_focal = some (some (24 : ℚ)) ∧
    (generate_statistics
        [⟨("1.jpg"), some 24, none, 24, group_focal_length (some 24)⟩,
         ⟨("2.jpg"), some 50, none, 50, group_focal_length (some 50)⟩,
         ⟨("3.jpg"), some 50, none, 50, group_focal_length (some 50)⟩]).map
        (fun st => st.group_stats) =
      some [(("广角 (24-28mm)"), 1), (("标准 (50mm)"), 2)] ∧
    (generate_statistics
        [⟨("1.jpg"), some 24, none, 24, group_focal_length (some 24)⟩,
         ⟨("2.jpg"), some 50, none, 50, group_focal_length (some 50)⟩,
         ⟨("3.jpg"), some 50, none, 50, group_focal_length (some 50)⟩]).map
        (fun st => st.focal_stats) =
      some [((24 : ℚ), 1), ((50 : ℚ), 2)] := by decide

/-- C2 (counterexample): with focal input "33.33" and default sensor
choice, the returned and persisted equivalent is 33.33 itself, not
round(33.33 * 1, 1) = 33.3. -/
theorem handle_missing_exif_not_rounded_cex :
    handle_missing_exif [] ("t") ("a.jpg") ["33.33", ""] =
      some (some ((3333 : ℚ) / 100),
            [(("a.jpg"), ⟨3333 / 100, 1, 3333 / 100, "", "t"⟩)], []) ∧
    ¬ ((3333 : ℚ) / 100 = round1 ((3333 / 100) * 1)) := by
  constructor
  · simp +decide [handle_missing_exif, elicitFocal, pyStrip, pyFloat?, pyFloatCore,
      digitsVal, storeLookup, storeSet, dictGet, basename, sensor_crop_factors,
      List.find?]
    norm_num
  · norm_num [round1, pyRound]

/-- C2 (amended): a fresh elicitation returns and persists exactly
rawFocal times the chosen crop factor, with no rounding applied. -/
theorem handle_missing_exif_exact_product (st : Store) (now image_path : String)
    (s c : String) (rest : List String) (f : ℚ)
    (hmiss : storeLookup st (basename image_path) = none)
    (hf : pyFloat? (pyStrip s) = some f) :
    handle_missing_exif st now image_path (s :: c :: rest) =
      some (some (f * dictGet sensor_crop_factors (pyStrip c) 1),
            storeSet st (basename image_path)
              ⟨f, dictGet sensor_crop_factors (pyStrip c) 1,
               f * dictGet sensor_crop_factors (pyStrip c) 1, pyStrip c, now⟩,
            rest) :=
  hme_fresh st now image_path s c rest f hmiss hf

/-- Witness for C2 at focal input "50" and sensor choice "2". -/
theorem handle_missing_exif_exact_product_witness :
    storeLookup [] (basename ("a.jpg")) = none ∧
    pyFloat? (pyStrip ("50")) = some 50 ∧
    handle_missing_exif [] ("t") ("a.jpg") ["50", "2"] =
      some (some ((50 : ℚ) * dictGet sensor_crop_factors (pyStrip ("2")) 1),
            storeSet [] (basename ("a.jpg"))
              ⟨50, dictGet sensor_crop_factors (pyStrip ("2")) 1,
               50 * dictGet sensor_crop_factors (pyStrip ("2")) 1,
               pyStrip ("2"), "t"⟩,
            []) :=
  ⟨rfl, by decide,
   handle_missing_exif_exact_product [] ("t") ("a.jpg") ("50") ("2") [] 50
     rfl (by decide)⟩

/-- C10: metadata-bearing records are identified by the path relative to
the input folder ("a/y.jpg"), while elicited records and store entries are
keyed by basename only ("x.jpg"); hence two metadata-less images with the
same basename in different subdirectories share one store entry, and the
second is resolved from the first one's stored equivalent with no further
console input (only the first image's two lines are consumed). -/
theorem analyze_folder_basename_collision (cf : String → Option ℚ)
    (now s c : String) (rest : List String) (f : ℚ)
    (hf : pyFloat? (pyStrip s) = some f) :
    analyze_folder cf [] now ("photos")
      [⟨["a"], ("y.jpg")⟩, ⟨["a"], ("x.jpg")⟩, ⟨["b"], ("x.jpg")⟩]
      (fun w => if w.filename = ("y.jpg") then (some 50, none) else (none, none))
      (s :: c :: rest) =
      some ([⟨("a/y.jpg"), some 50, none, round1 (50 * get_camera_crop_factor cf none),
              group_focal_length (some (round1 (50 * get_camera_crop_factor cf none)))⟩,
             ⟨("x.jpg"), none, some ("手动输入"), f * dictGet sensor_crop_factors (pyStrip c) 1,
              group_focal_length (some (f * dictGet sensor_crop_factors (pyStrip c) 1))⟩,
             ⟨("x.jpg"), none, some ("手动输入"), f * dictGet sensor_crop_factors (pyStrip c) 1,
              group_focal_length (some (f * dictGet sensor_crop_factors (pyStrip c) 1))⟩],
            [(("x.jpg"), ⟨f, dictGet sensor_crop_factors (pyStrip c) 1,
              f * dictGet sensor_crop_factors (pyStrip c) 1, pyStrip c, now⟩)],
            rest) := by
  have h1 := hme_fresh [] now ("photos/a/x.jpg") s c rest f rfl hf
  have h2 := hme_cached
      [(("x.jpg"), ⟨f, dictGet sensor_crop_factors (pyStrip c) 1,
        f * dictGet sensor_crop_factors (pyStrip c) 1, pyStrip c, now⟩)]
      now ("photos/b/x.jpg") rest
      ⟨f, dictGet sensor_crop_factors (pyStrip c) 1,
        f * dictGet sensor_crop_factors (pyStrip c) 1, pyStrip c, now⟩ rfl
  have hpass1 : analyze_pass1 cf
      (fun w => if w.filename = ("y.jpg") then (some 50, none) else (none, none))
      [⟨["a"], ("y.jpg")⟩, ⟨["a"], ("x.jpg")⟩, ⟨["b"], ("x.jpg")⟩] =
      ([⟨("a/y.jpg"), some 50, none, round1 (50 * get_camera_crop_factor cf none),
         group_focal_length (some (round1 (50 * get_camera_crop_factor cf none)))⟩],
       [⟨["a"], ("x.jpg")⟩, ⟨["b"], ("x.jpg")⟩]) := rfl
  have hpath2 : imagePath ("photos") ⟨["a"], ("x.jpg")⟩ = ("photos/a/x.jpg") := rfl
  have hpath3 : imagePath ("photos") ⟨["b"], ("x.jpg")⟩ = ("photos/b/x.jpg") := rfl
  have hbase2 : basename ("photos/a/x.jpg") = ("x.jpg") := rfl
  have hbase3 : basename ("photos/b/x.jpg") = ("x.jpg") := rfl
  simp only [analyze_folder]
  rw [hpass1]
  dsimp only
  simp only [analyze_pass2]
  rw [hpath2, h1]
  dsimp only
  simp only [storeSet]
  rw [hbase2]
  rw [hpath3, h2]
  dsimp only
  rw [hbase3]
  rfl

/-- Witness for C10 at focal input "75" and sensor choice "1". -/
theorem analyze_folder_basename_collision_witness :
    pyFloat? (pyStrip ("75")) = some 75 ∧
    analyze_folder (fun _ => none) [] ("t") ("photos")
      [⟨["a"], ("y.jpg")⟩, ⟨["a"], ("x.jpg")⟩, ⟨["b"], ("x.jpg")⟩]
      (fun w => if w.filename = ("y.jpg") then (some 50, none) else (none, none))
      ["75", "1"] =
      some ([⟨("a/y.jpg"), some 50, none,
              round1 (50 * get_camera_crop_factor (fun _ => none) none),
              group_focal_length
                (some (round1 (50 * get_camera_crop_factor (fun _ => none) none)))⟩,
             ⟨("x.jpg"), none, some ("手动输入"),
              75 * dictGet sensor_crop_factors (pyStrip ("1")) 1,
              group_focal_length
                (some (75 * dictGet sensor_crop_factors (pyStrip ("1")) 1))⟩,
             ⟨("x.jpg"), none, some ("手动输入"),
              75 * dictGet sensor_crop_factors (pyStrip ("1")) 1,
              group_focal_length
                (some (75 * dictGet sensor_crop_factors (pyStrip ("1")) 1))⟩],
            [(("x.jpg"), ⟨75, dictGet sensor_crop_factors (pyStrip ("1")) 1,
              75 * dictGet sensor_crop_factors (pyStrip ("1")) 1, pyStrip ("1"), "t"⟩)],
            []) :=
  ⟨by decide,
   analyze_folder_basename_collision (fun _ => none) ("t") ("75") ("1") [] 75
     (by decide)⟩

end FocalLengthAnalyzer
